import Mathlib

/-!
Shallow embedding of the codenames room/game logic:
`generateBoard` (src/utils/generateBoard.ts), the `GamePage` transitions
`submitClue`, `guessCard`, `endTurn` (src/pages/GamePage.tsx) and the
`LobbyPage` operations `selectRole`, `canStart`, `startGame`.

Conventions: Firebase `null` becomes `Option.none`; JavaScript string
truthiness (`null` and `""` are falsy) is modelled by `jsTruthy`;
`Math.random()`-driven choices are passed in as explicit parameters.
-/

namespace Codenames

/-- Source `type Team = 'red' | 'blue'` (src/types). -/
inductive Team where
  | red
  | blue
deriving DecidableEq, Repr

/-- Source `game.currentTurn === 'red' ? 'blue' : 'red'` — the opposite team. -/
def Team.other : Team → Team
  | .red => .blue
  | .blue => .red

/-- Source `type CardType = 'red' | 'blue' | 'neutral' | 'assassin'` (src/types). -/
inductive CardType where
  | red
  | blue
  | neutral
  | assassin
deriving DecidableEq, Repr

/-- The card type whose string equals the team's string
(used for the JS comparison `card.type !== game.currentTurn`). -/
def teamCardType : Team → CardType
  | .red => .red
  | .blue => .blue

/-- Source `type GamePhase = 'clue' | 'guess'` (src/types). -/
inductive Phase where
  | clue
  | guess
deriving DecidableEq, Repr

/-- Source `type RoomStatus = 'waiting' | 'playing' | 'finished'` (src/types). -/
inductive RoomStatus where
  | waiting
  | playing
  | finished
deriving DecidableEq, Repr

/-- Source `'all_found' | 'assassin'` — the `winReason` values (src/types). -/
inductive WinReason where
  | all_found
  | assassin
deriving DecidableEq, Repr

/-- Source `type Role = 'spymaster' | 'operative'` (src/types). -/
inductive Role where
  | spymaster
  | operative
deriving DecidableEq, Repr

/-- Source `interface Card` (src/types). -/
structure Card where
  id : Nat
  word : String
  type : CardType
  revealed : Bool
  revealedBy : Option String
deriving DecidableEq, Repr

/-- Source `interface Clue` (src/types). -/
structure Clue where
  word : String
  number : Nat
  guessesRemaining : Nat
deriving DecidableEq, Repr

/-- Source `interface TeamScore` (src/types). -/
structure TeamScore where
  found : Nat
  total : Nat
deriving DecidableEq, Repr

/-- The `scores: { red: TeamScore; blue: TeamScore }` field of `GameState`. -/
structure Scores where
  red : TeamScore
  blue : TeamScore
deriving DecidableEq, Repr

/-- The log entry kinds `'clue' | 'guess' | 'pass' | 'game_over'` (src/types). -/
inductive LogType where
  | clue
  | guess
  | pass
  | game_over
deriving DecidableEq, Repr

/-- The optional-field `data` bag of `GameLogEntry` (src/types). -/
structure LogData where
  clueWord : Option String := none
  clueNumber : Option Nat := none
  guessedWord : Option String := none
  cardType : Option CardType := none
  winner : Option Team := none
  winReason : Option WinReason := none
deriving DecidableEq, Repr

/-- Source `interface GameLogEntry` (src/types). -/
structure GameLogEntry where
  timestamp : Nat
  type : LogType
  team : Team
  playerId : String
  playerName : String
  data : LogData
deriving DecidableEq, Repr

/-- Source `interface GameState` (src/types). -/
structure GameState where
  board : List Card
  currentTurn : Team
  startingTeam : Team
  phase : Phase
  currentClue : Option Clue
  scores : Scores
  winner : Option Team
  winReason : Option WinReason
  log : List GameLogEntry
deriving DecidableEq, Repr

/-- The viewing player's context used by the `GamePage` guards:
`currentPlayer = room.players?.[user?.uid]` with its `role`, `team`,
`name`, and the authenticated `user.uid`. -/
structure PlayerCtx where
  uid : String
  name : String
  role : Option Role
  team : Option Team
deriving DecidableEq, Repr

/-- Source `const isSpymaster = currentPlayer?.role === 'spymaster'` (GamePage). -/
def isSpymaster (p : PlayerCtx) : Bool :=
  p.role = some Role.spymaster

/-- Source `const isMyTurn = game.currentTurn === myTeam` (GamePage);
comparing against an absent team is `false`. -/
def isMyTurn (g : GameState) (p : PlayerCtx) : Bool :=
  p.team = some g.currentTurn

/-- Source `const canGiveClue = isSpymaster && isMyTurn && isCluePhase` (GamePage). -/
def canGiveClue (g : GameState) (p : PlayerCtx) : Bool :=
  isSpymaster p && isMyTurn g p && g.phase = Phase.clue

/-- Source `const canGuess = !isSpymaster && isMyTurn && isGuessPhase` (GamePage). -/
def canGuess (g : GameState) (p : PlayerCtx) : Bool :=
  !isSpymaster p && isMyTurn g p && g.phase = Phase.guess

/-- JavaScript `String.prototype.trim()`: strip leading and trailing
whitespace (kernel-computable counterpart of `String.trim`). -/
def jsTrim (s : String) : String :=
  ⟨((s.data.dropWhile Char.isWhitespace).reverse.dropWhile Char.isWhitespace).reverse⟩

/-- JavaScript `String.prototype.toUpperCase()` on the alphabet the app
uses (kernel-computable counterpart of `String.toUpper`). -/
def jsToUpper (s : String) : String :=
  ⟨s.data.map Char.toUpper⟩

/-- Source `submitClue` (GamePage): guarded by `canGiveClue`, a non-empty trimmed
clue word and `clueNumber ≥ 1`; sets phase to `guess`, the clue to
`{word, number, guessesRemaining: number+1}` and appends a `clue` log entry. -/
def submitClue (p : PlayerCtx) (clueWord : String) (clueNumber : Nat)
    (ts : Nat) (g : GameState) : GameState :=
  if ¬ canGiveClue g p then g
  else if jsTrim clueWord = "" ∨ clueNumber < 1 then g
  else
    { g with
      phase := Phase.guess
      currentClue := some
        { word := jsToUpper (jsTrim clueWord)
          number := clueNumber
          guessesRemaining := clueNumber + 1 }
      log := g.log ++ [{ timestamp := ts
                         type := LogType.clue
                         team := g.currentTurn
                         playerId := p.uid
                         playerName := p.name
                         data := { clueWord := some (jsToUpper (jsTrim clueWord))
                                   clueNumber := some clueNumber } }] }

/-- The score update in `guessCard`: `found + 1` for a red or blue card,
unchanged for neutral and assassin cards. -/
def bumpScores (s : Scores) : CardType → Scores
  | .red => { s with red := { s.red with found := s.red.found + 1 } }
  | .blue => { s with blue := { s.blue with found := s.blue.found + 1 } }
  | _ => s

/-- The `guess` log entry built in `guessCard`. -/
def guessLogEntry (p : PlayerCtx) (g : GameState) (card : Card)
    (ts : Nat) : GameLogEntry :=
  { timestamp := ts
    type := LogType.guess
    team := g.currentTurn
    playerId := p.uid
    playerName := p.name
    data := { guessedWord := some card.word, cardType := some card.type } }

/-- Source `guessCard` (GamePage): guarded by `canGuess` and the card being
unrevealed; reveals the card, bumps the revealed colour's score, appends a
`guess` log entry, then resolves in order: assassin → other team wins;
red all found → red wins; blue all found → blue wins; wrong-team or
neutral card → turn passes; otherwise decrement `guessesRemaining`
(JS `(game.currentClue?.guessesRemaining || 1) - 1`), passing the turn
when it reaches 0. Returns the room status together with the game. -/
def guessCard (p : PlayerCtx) (st : RoomStatus) (g : GameState)
    (cardIndex : Nat) (ts : Nat) : RoomStatus × GameState :=
  if ¬ canGuess g p then (st, g)
  else
    match g.board[cardIndex]? with
    | none => (st, g)
    | some card =>
      if card.revealed then (st, g)
      else
        let newBoard := g.board.set cardIndex
          { card with revealed := true, revealedBy := some p.uid }
        let newScores := bumpScores g.scores card.type
        let newLog := g.log ++ [guessLogEntry p g card ts]
        if card.type = CardType.assassin then
          (RoomStatus.finished,
           { g with board := newBoard, scores := newScores, log := newLog
                    winner := some g.currentTurn.other
                    winReason := some WinReason.assassin })
        else if newScores.red.found = newScores.red.total then
          (RoomStatus.finished,
           { g with board := newBoard, scores := newScores, log := newLog
                    winner := some Team.red
                    winReason := some WinReason.all_found })
        else if newScores.blue.found = newScores.blue.total then
          (RoomStatus.finished,
           { g with board := newBoard, scores := newScores, log := newLog
                    winner := some Team.blue
                    winReason := some WinReason.all_found })
        else if card.type ≠ teamCardType g.currentTurn then
          (st, { g with board := newBoard, scores := newScores, log := newLog
                        currentTurn := g.currentTurn.other
                        phase := Phase.clue
                        currentClue := none })
        else
          match g.currentClue with
          | none =>
            -- `(undefined || 1) - 1 = 0`, so the turn passes.
            (st, { g with board := newBoard, scores := newScores
                          log := newLog
                          currentTurn := g.currentTurn.other
                          phase := Phase.clue
                          currentClue := none })
          | some c =>
            -- `(c.guessesRemaining || 1) - 1`: a falsy 0 defaults to 1.
            let remaining :=
              (if c.guessesRemaining = 0 then 1 else c.guessesRemaining) - 1
            if remaining = 0 then
              (st, { g with board := newBoard, scores := newScores
                            log := newLog
                            currentTurn := g.currentTurn.other
                            phase := Phase.clue
                            currentClue := none })
            else
              (st, { g with board := newBoard, scores := newScores
                            log := newLog
                            currentClue :=
                              some { c with guessesRemaining := remaining } })

/-- JavaScript truthiness of a `string | null` field: `null` and the empty
string are falsy (used on Firebase uid slots such as `teamData.spymaster`). -/
def jsTruthy : Option String → Bool
  | none => false
  | some s => s ≠ ""

/-- Source `interface TeamData` (src/types): `spymaster: string | null`,
`operatives: string[]`. -/
structure TeamData where
  spymaster : Option String
  operatives : List String
deriving DecidableEq, Repr

/-- The `teams: { red: TeamData; blue: TeamData }` field of `Room`. -/
structure Teams where
  red : TeamData
  blue : TeamData
deriving DecidableEq, Repr

/-- Source `room.teams[team]`. -/
def Teams.get (ts : Teams) : Team → TeamData
  | .red => ts.red
  | .blue => ts.blue

/-- Write `rooms/{code}/teams/{team}` (partial-field update). -/
def Teams.setTeam (ts : Teams) : Team → TeamData → Teams
  | .red, td => { ts with red := td }
  | .blue, td => { ts with blue := td }

/-- The per-player record fields used by the lobby (`interface Player`). -/
structure RoomPlayer where
  id : String
  name : String
  team : Option Team
  role : Option Role
deriving DecidableEq, Repr

/-- Source `interface Room`, restricted to the fields the lobby and game logic
read and write; `players` is the `Record<string, Player>` map as an
association list keyed by uid. -/
structure Room where
  createdBy : String
  status : RoomStatus
  teams : Teams
  players : List (String × RoomPlayer)
  game : Option GameState
deriving DecidableEq, Repr

/-- Write `rooms/{code}/players/{uid}/role` (partial-field update). -/
def setPlayerRole (ps : List (String × RoomPlayer)) (uid : String)
    (role : Role) : List (String × RoomPlayer) :=
  ps.map fun kv => if kv.1 = uid then (kv.1, { kv.2 with role := some role }) else kv

/-- Source `selectRole` (LobbyPage): requires the requesting player to have a team;
a spymaster request is rejected (no-op) when another player holds the slot
(`if (teamData.spymaster && teamData.spymaster !== user.uid) return`);
otherwise it moves the player out of the operatives list into the slot.
An operative request vacates the slot when held and ensures membership in
the operatives list. Finally the player's `role` field is updated. -/
def selectRole (r : Room) (uid : String) (role : Role) : Room :=
  match (r.players.lookup uid).bind RoomPlayer.team with
  | none => r
  | some team =>
    let teamData := r.teams.get team
    if role = Role.spymaster then
      if jsTruthy teamData.spymaster ∧ teamData.spymaster ≠ some uid then r
      else
        { r with
          teams := r.teams.setTeam team
            { spymaster := some uid
              operatives := teamData.operatives.filter (· ≠ uid) }
          players := setPlayerRole r.players uid role }
    else
      { r with
        teams := r.teams.setTeam team
          { spymaster :=
              if teamData.spymaster = some uid then none else teamData.spymaster
            operatives :=
              if uid ∈ teamData.operatives then teamData.operatives
              else teamData.operatives ++ [uid] }
        players := setPlayerRole r.players uid role }

/-- Source `canStart` (LobbyPage): `redTeam.spymaster && blueTeam.spymaster &&
((redTeam.operatives?.length || 0) > 0 || (blueTeam.operatives?.length || 0) > 0)`. -/
def canStart (ts : Teams) : Bool :=
  jsTruthy ts.red.spymaster && jsTruthy ts.blue.spymaster &&
    (decide (ts.red.operatives.length > 0) || decide (ts.blue.operatives.length > 0))

/-- The fresh `GameState` written by `startGame` (and `playAgain`):
scores reset to `found 0` with totals 9/8 keyed on the starting team,
phase `clue`, no clue, no winner, empty log. -/
def freshGame (startingTeam : Team) (board : List Card) : GameState :=
  { board := board
    currentTurn := startingTeam
    startingTeam := startingTeam
    phase := Phase.clue
    currentClue := none
    scores :=
      { red := { found := 0, total := if startingTeam = Team.red then 9 else 8 }
        blue := { found := 0, total := if startingTeam = Team.blue then 9 else 8 } }
    winner := none
    winReason := none
    log := [] }

/-- Source `startGame` (LobbyPage): validates only that both teams' spymaster
fields are truthy, then writes `status = 'playing'` and a fresh game.
The coin-flipped starting team and the generated board are passed in
explicitly (they come from `getRandomStartingTeam`/`generateBoard`). -/
def startGame (r : Room) (startingTeam : Team) (board : List Card) : Room :=
  if ¬ jsTruthy r.teams.red.spymaster ∨ ¬ jsTruthy r.teams.blue.spymaster then r
  else
    { r with
      status := RoomStatus.playing
      game := some (freshGame startingTeam board) }

/-- Source `endTurn` (GamePage): guarded by `canGuess`; flips the turn, returns to
the clue phase, clears the clue and appends a `pass` log entry. -/
def endTurn (p : PlayerCtx) (ts : Nat) (g : GameState) : GameState :=
  if ¬ canGuess g p then g
  else
    { g with
      currentTurn := g.currentTurn.other
      phase := Phase.clue
      currentClue := none
      log := g.log ++ [{ timestamp := ts
                         type := LogType.pass
                         team := g.currentTurn
                         playerId := p.uid
                         playerName := p.name
                         data := {} }] }

/-- One Fisher–Yates swap: exchange positions `i` and `j`
(`[shuffled[i], shuffled[j]] = [shuffled[j], shuffled[i]]`); out-of-range
indices leave the list unchanged (they never occur in the loop). -/
def listSwap (l : List α) (i j : Nat) : List α :=
  match l[i]?, l[j]? with
  | some x, some y => (l.set i y).set j x
  | _, _ => l

/-- The loop of `shuffleArray`, counting `i` down from `length - 1` to `1`;
`f i` supplies the `Math.random()` draw at step `i`, reduced mod `i + 1`
exactly as `Math.floor(Math.random() * (i + 1))` lands in `[0, i]`. -/
def shuffleAux (f : Nat → Nat) : Nat → List α → List α
  | 0, l => l
  | i + 1, l => shuffleAux f i (listSwap l (i + 1) (f (i + 1) % (i + 2)))

/-- Source `shuffleArray` (src/utils/generateBoard.ts): Fisher–Yates over a copy of
the input, with the random draws supplied by `f`. -/
def shuffleArray (f : Nat → Nat) (l : List α) : List α :=
  shuffleAux f (l.length - 1) l

/-- The card type multiset built in `generateBoard`: 9 of the starting
team's colour, 8 of the other, 7 neutral, 1 assassin. -/
def boardTypes (startingTeam : Team) : List CardType :=
  List.replicate (if startingTeam = Team.red then 9 else 8) CardType.red ++
    List.replicate (if startingTeam = Team.blue then 9 else 8) CardType.blue ++
    List.replicate 7 CardType.neutral ++ [CardType.assassin]

/-- Source `generateBoard` (src/utils/generateBoard.ts): take 25 shuffled words,
independently shuffle the type multiset, and zip `words[index]` with
`shuffledTypes[index]` into unrevealed cards with `id = index`.
The two shuffles' random draws are `f` and `fTypes`; the vocabulary
(`WORD_LIST`) is the `wordList` parameter. The lists both have length 25,
so the `getD` default is never consulted. -/
def generateBoard (f fTypes : Nat → Nat) (wordList : List String)
    (startingTeam : Team) : List Card :=
  ((shuffleArray f wordList).take 25).enum.map fun p =>
    { id := p.1
      word := p.2
      type := (shuffleArray fTypes (boardTypes startingTeam)).getD p.1 CardType.neutral
      revealed := false
      revealedBy := none }

/-- Source `getRandomStartingTeam` with the coin flip passed in:
`Math.random() < 0.5 ? 'red' : 'blue'`. -/
def getRandomStartingTeam (coin : Bool) : Team :=
  if coin then Team.red else Team.blue

/-- Source `room.scores[team]`-style accessor for stating team-indexed facts. -/
def Scores.get (s : Scores) : Team → TeamScore
  | .red => s.red
  | .blue => s.blue

/-! ### Concrete fixture states for witnesses and counterexamples -/

/-- A red-team operative viewing the game. -/
def opRed : PlayerCtx :=
  { uid := "op-red", name := "Red Operative"
    role := some Role.operative, team := some Team.red }

/-- A blue-team operative viewing the game. -/
def opBlue : PlayerCtx :=
  { uid := "op-blue", name := "Blue Operative"
    role := some Role.operative, team := some Team.blue }

/-- A red-team spymaster viewing the game. -/
def spyRed : PlayerCtx :=
  { uid := "spy-red", name := "Red Spymaster"
    role := some Role.spymaster, team := some Team.red }

/-- A clue-phase game on red's turn (fresh board reduced to one card). -/
def wGameClue : GameState :=
  { board := [{ id := 0, word := "DOG", type := CardType.red
                revealed := false, revealedBy := none }]
    currentTurn := Team.red, startingTeam := Team.red
    phase := Phase.clue, currentClue := none
    scores := { red := { found := 0, total := 9 }
                blue := { found := 0, total := 8 } }
    winner := none, winReason := none, log := [] }

/-- A guess-phase game on red's turn whose card 0 is the assassin. -/
def wGameAssassin : GameState :=
  { board := [{ id := 0, word := "BOMB", type := CardType.assassin
                revealed := false, revealedBy := none }]
    currentTurn := Team.red, startingTeam := Team.red
    phase := Phase.guess, currentClue := some { word := "X", number := 1, guessesRemaining := 2 }
    scores := { red := { found := 0, total := 9 }
                blue := { found := 0, total := 8 } }
    winner := none, winReason := none, log := [] }

/-- Guess phase, red's turn; card 0 is blue's **last** unfound card
(blue has found 7 of 8), so revealing it completes blue's board. -/
def cxGameC1 : GameState :=
  { board := [{ id := 0, word := "CLAM", type := CardType.blue
                revealed := false, revealedBy := none }]
    currentTurn := Team.red, startingTeam := Team.red
    phase := Phase.guess, currentClue := some { word := "X", number := 2, guessesRemaining := 3 }
    scores := { red := { found := 0, total := 9 }
                blue := { found := 7, total := 8 } }
    winner := none, winReason := none, log := [] }

/-- A game blue already won by assassin (red hit it): `winner` set, phase
still `guess`, red still the current turn, card 0 still unrevealed. -/
def cxGameC2 : GameState :=
  { board := [{ id := 0, word := "TREE", type := CardType.neutral
                revealed := false, revealedBy := none }]
    currentTurn := Team.red, startingTeam := Team.red
    phase := Phase.guess, currentClue := some { word := "X", number := 2, guessesRemaining := 3 }
    scores := { red := { found := 3, total := 9 }
                blue := { found := 2, total := 8 } }
    winner := some Team.blue, winReason := some WinReason.assassin, log := [] }

/-- Guess phase, blue's turn; card 0 is blue's last unfound card, but red's
board is already complete (a reachable post-win state, since winner states
still accept guesses). -/
def cxGameC4 : GameState :=
  { board := [{ id := 0, word := "CLAM", type := CardType.blue
                revealed := false, revealedBy := none }]
    currentTurn := Team.blue, startingTeam := Team.red
    phase := Phase.guess, currentClue := some { word := "X", number := 1, guessesRemaining := 2 }
    scores := { red := { found := 9, total := 9 }
                blue := { found := 7, total := 8 } }
    winner := some Team.red, winReason := some WinReason.all_found, log := [] }

/-- Guess phase, red's turn; card 0 is a red card that does not complete
red's board, but blue's board is already complete. -/
def cxGameC5 : GameState :=
  { board := [{ id := 0, word := "DOG", type := CardType.red
                revealed := false, revealedBy := none }]
    currentTurn := Team.red, startingTeam := Team.red
    phase := Phase.guess, currentClue := some { word := "X", number := 2, guessesRemaining := 3 }
    scores := { red := { found := 3, total := 9 }
                blue := { found := 8, total := 8 } }
    winner := some Team.blue, winReason := some WinReason.all_found, log := [] }

/-- A lobby with both spymaster slots filled and one red operative. -/
def wTeamsFull : Teams :=
  { red := { spymaster := some "alice", operatives := ["olly"] }
    blue := { spymaster := some "bob", operatives := [] } }

/-- A lobby with two spymasters and zero operatives on either team. -/
def wTeamsNoOps : Teams :=
  { red := { spymaster := some "alice", operatives := [] }
    blue := { spymaster := some "bob", operatives := [] } }

/-- A waiting room whose red team has no spymaster yet; `alice` and `bob`
are both on the red team as operatives. -/
def wRoom : Room :=
  { createdBy := "alice"
    status := RoomStatus.waiting
    teams := { red := { spymaster := none, operatives := ["alice", "bob"] }
               blue := { spymaster := none, operatives := [] } }
    players := [("alice", { id := "alice", name := "Alice"
                            team := some Team.red, role := some Role.operative }),
                ("bob", { id := "bob", name := "Bob"
                          team := some Team.red, role := some Role.operative })]
    game := none }

/-- A waiting room with both spymasters and no operatives at all. -/
def wRoomNoOps : Room :=
  { createdBy := "alice"
    status := RoomStatus.waiting
    teams := wTeamsNoOps
    players := [("alice", { id := "alice", name := "Alice"
                            team := some Team.red, role := some Role.spymaster }),
                ("bob", { id := "bob", name := "Bob"
                          team := some Team.blue, role := some Role.spymaster })]
    game := none }

/-- Fixture: 25 pairwise-distinct words, a minimal vocabulary for `generateBoard`. -/
def wWords : List String :=
  ["W01", "W02", "W03", "W04", "W05", "W06", "W07", "W08", "W09", "W10",
   "W11", "W12", "W13", "W14", "W15", "W16", "W17", "W18", "W19", "W20",
   "W21", "W22", "W23", "W24", "W25"]

/-! ### Helper lemmas: the Fisher–Yates shuffle is a permutation -/

theorem count_set_add [DecidableEq α] (a b x : α) :
    ∀ (i : Nat) (l : List α), l[i]? = some x →
      (l.set i b).count a + (if x = a then 1 else 0)
        = l.count a + (if b = a then 1 else 0)
  | 0, [], h => by simp at h
  | 0, c :: t, h => by
    simp only [List.getElem?_cons_zero, Option.some.injEq] at h
    subst h
    show (b :: t).count a + (if c = a then 1 else 0)
        = (c :: t).count a + (if b = a then 1 else 0)
    simp only [List.count_cons, beq_iff_eq]
    split_ifs <;> omega
  | i + 1, [], h => by simp at h
  | i + 1, c :: t, h => by
    simp only [List.getElem?_cons_succ] at h
    have ih := count_set_add a b x i t h
    show (c :: t.set i b).count a + (if x = a then 1 else 0)
        = (c :: t).count a + (if b = a then 1 else 0)
    simp only [List.count_cons, beq_iff_eq]
    split_ifs at ih ⊢ <;> omega

theorem listSwap_perm [DecidableEq α] (l : List α) (i j : Nat) :
    (listSwap l i j).Perm l := by
  rcases hi : l[i]? with _ | x
  · simp [listSwap, hi]
  rcases hj : l[j]? with _ | y
  · simp [listSwap, hi, hj]
  have hjlen : j < l.length := by rw [List.getElem?_eq_some] at hj; exact hj.1
  have hj' : (l.set i y)[j]? = some y := by
    by_cases hij : i = j
    · subst hij
      exact List.getElem?_set_eq_of_lt y hjlen
    · rw [List.getElem?_set_ne hij]
      exact hj
  simp only [listSwap, hi, hj]
  rw [List.perm_iff_count]
  intro a
  have h1 := count_set_add a y x i l hi
  have h2 := count_set_add a x y j (l.set i y) hj'
  split_ifs at h1 h2 <;> omega

theorem shuffleAux_perm [DecidableEq α] (f : Nat → Nat) :
    ∀ (i : Nat) (l : List α), (shuffleAux f i l).Perm l
  | 0, l => List.Perm.refl l
  | i + 1, l => by
    have h1 := shuffleAux_perm f i (listSwap l (i + 1) (f (i + 1) % (i + 2)))
    exact h1.trans (listSwap_perm l (i + 1) (f (i + 1) % (i + 2)))

theorem shuffleArray_perm [DecidableEq α] (f : Nat → Nat) (l : List α) :
    (shuffleArray f l).Perm l :=
  shuffleAux_perm f (l.length - 1) l

theorem enum_map_getD {β : Type} (ws : List α) (ts : List β) (d : β)
    (h : ws.length = ts.length) :
    (ws.enum.map fun p => ts.getD p.1 d) = ts := by
  apply List.ext_getElem?
  intro i
  rw [List.getElem?_map, List.getElem?_enum]
  by_cases hi : i < ws.length
  · have hit : i < ts.length := h ▸ hi
    rw [List.getElem?_eq_getElem hi, List.getElem?_eq_getElem hit]
    simp only [Option.map_some', List.getD, List.get?_eq_getElem?,
      List.getElem?_eq_getElem hit, Option.getD_some]
  · have h1 : ws[i]? = none := by
      rw [List.getElem?_eq_none_iff]; omega
    have h2 : ts[i]? = none := by
      rw [List.getElem?_eq_none_iff]; omega
    simp [h1, h2]

theorem boardTypes_length (t : Team) : (boardTypes t).length = 25 := by
  cases t <;> rfl

/-! ### Claim theorems -/

/-- C6: a clue submission with a non-empty trimmed word and number `n ≥ 1`,
made in the clue phase by the current-turn team's spymaster, sets
`currentClue` to `{word, number n, guessesRemaining n+1}`, sets the phase
to `guess`, and appends exactly one clue-type log entry (so after
`submitClue "CAT" 3` the clue's `guessesRemaining` is `4`). -/
theorem submitClue_sets_clue_and_guesses (p : PlayerCtx) (w : String)
    (n ts : Nat) (g : GameState)
    (hcan : canGiveClue g p = true) (hw : jsTrim w ≠ "") (hn : 1 ≤ n) :
    (submitClue p w n ts g).phase = Phase.guess ∧
    (submitClue p w n ts g).currentClue =
      some { word := jsToUpper (jsTrim w), number := n, guessesRemaining := n + 1 } ∧
    ∃ e : GameLogEntry,
      (submitClue p w n ts g).log = g.log ++ [e] ∧ e.type = LogType.clue := by
  unfold submitClue
  rw [if_neg (by simp [hcan])]
  rw [if_neg (not_or.mpr ⟨hw, by omega⟩)]
  exact ⟨rfl, rfl, ⟨_, rfl, rfl⟩⟩

/-- Witness for C6: in the fixture clue-phase game, the red spymaster
submits `"CAT" 3` and the clue becomes `{CAT, 3, 4}` in the guess phase. -/
theorem submitClue_sets_clue_and_guesses_witness :
    (submitClue spyRed "CAT" 3 0 wGameClue).phase = Phase.guess ∧
    (submitClue spyRed "CAT" 3 0 wGameClue).currentClue =
      some { word := "CAT", number := 3, guessesRemaining := 4 } := by
  have h := submitClue_sets_clue_and_guesses spyRed "CAT" 3 0 wGameClue
    (by decide) (by decide) (by decide)
  refine ⟨h.1, ?_⟩
  rw [h.2.1]
  rfl

/-- C3: in the guess phase, guessing the unrevealed assassin card finishes
the room and makes the opposite team the winner with `winReason =
assassin`, for any scores (the assassin branch is the first one checked,
before the all-found checks). -/
theorem guessCard_assassin_other_team_wins (p : PlayerCtx) (st : RoomStatus)
    (g : GameState) (i ts : Nat) (card : Card)
    (hcan : canGuess g p = true) (hc : g.board[i]? = some card)
    (hrev : card.revealed = false) (hty : card.type = CardType.assassin) :
    (guessCard p st g i ts).1 = RoomStatus.finished ∧
    (guessCard p st g i ts).2.winner = some g.currentTurn.other ∧
    (guessCard p st g i ts).2.winReason = some WinReason.assassin := by
  unfold guessCard
  rw [if_neg (by simp [hcan]), hc]
  simp only [hrev, Bool.false_eq_true, if_false, hty, if_pos rfl]
  exact ⟨rfl, rfl, rfl⟩

/-- Witness for C3: the red operative reveals the assassin at index 0 of
the fixture game; blue wins with reason `assassin` and the room finishes. -/
theorem guessCard_assassin_other_team_wins_witness :
    (guessCard opRed RoomStatus.playing wGameAssassin 0 7).1
        = RoomStatus.finished ∧
    (guessCard opRed RoomStatus.playing wGameAssassin 0 7).2.winner
        = some Team.blue ∧
    (guessCard opRed RoomStatus.playing wGameAssassin 0 7).2.winReason
        = some WinReason.assassin :=
  guessCard_assassin_other_team_wins opRed RoomStatus.playing wGameAssassin 0 7
    { id := 0, word := "BOMB", type := CardType.assassin
      revealed := false, revealedBy := none }
    (by decide) (by decide) (by decide) (by decide)

/-- C9: for teams whose spymaster slots hold real (non-empty) uids,
`canStart` is true iff both teams have a non-null spymaster and the
combined operative count is at least 1; in particular a room with two
spymasters and zero operatives cannot start. -/
theorem canStart_iff_spymasters_and_an_operative (ts : Teams)
    (hr : ts.red.spymaster ≠ some "") (hb : ts.blue.spymaster ≠ some "") :
    canStart ts = true ↔
      (ts.red.spymaster ≠ none ∧ ts.blue.spymaster ≠ none ∧
        1 ≤ ts.red.operatives.length + ts.blue.operatives.length) := by
  unfold canStart
  rcases hrs : ts.red.spymaster with _ | r <;>
    rcases hbs : ts.blue.spymaster with _ | b <;>
      simp_all [jsTruthy] <;> omega

/-- Witness for C9: the fixture lobby with two spymasters and one red
operative can start, and the two-spymaster zero-operative lobby cannot. -/
theorem canStart_iff_spymasters_and_an_operative_witness :
    canStart wTeamsFull = true ∧ ¬ canStart wTeamsNoOps = true :=
  ⟨(canStart_iff_spymasters_and_an_operative wTeamsFull (by decide)
      (by decide)).mpr (by decide),
   fun h => by
    have h2 := (canStart_iff_spymasters_and_an_operative wTeamsNoOps
      (by decide) (by decide)).mp h
    simp [wTeamsNoOps] at h2⟩

/-- C10: `startGame` validates only that both spymaster slots are filled:
on a room with both spymasters set and zero operatives on either team it
still writes `status = 'playing'` and the fresh game state (found counts
0, totals 9/8 keyed on the starting team, phase `clue`, empty log), even
though `canStart` is false for that room — the operative-count requirement
exists only in the `canStart` UI gate. -/
theorem startGame_checks_only_spymasters (r : Room) (t : Team)
    (b : List Card)
    (hrs : r.teams.red.spymaster ≠ none) (hrs' : r.teams.red.spymaster ≠ some "")
    (hbs : r.teams.blue.spymaster ≠ none) (hbs' : r.teams.blue.spymaster ≠ some "")
    (hro : r.teams.red.operatives = []) (hbo : r.teams.blue.operatives = []) :
    canStart r.teams = false ∧
    (startGame r t b).status = RoomStatus.playing ∧
    (startGame r t b).game = some
      { board := b
        currentTurn := t
        startingTeam := t
        phase := Phase.clue
        currentClue := none
        scores :=
          { red := { found := 0, total := if t = Team.red then 9 else 8 }
            blue := { found := 0, total := if t = Team.blue then 9 else 8 } }
        winner := none
        winReason := none
        log := [] } := by
  have htr : jsTruthy r.teams.red.spymaster = true := by
    rcases h : r.teams.red.spymaster with _ | s
    · exact absurd h hrs
    · simp [jsTruthy]
      intro he
      exact hrs' (by rw [h, he])
  have htb : jsTruthy r.teams.blue.spymaster = true := by
    rcases h : r.teams.blue.spymaster with _ | s
    · exact absurd h hbs
    · simp [jsTruthy]
      intro he
      exact hbs' (by rw [h, he])
  refine ⟨?_, ?_, ?_⟩
  · simp [canStart, hro, hbo]
  · unfold startGame
    rw [if_neg (by simp [htr, htb])]
  · unfold startGame
    rw [if_neg (by simp [htr, htb])]
    rfl

/-- Witness for C10: the fixture room with two spymasters and no
operatives cannot start via the gate, yet `startGame` starts it. -/
theorem startGame_checks_only_spymasters_witness :
    canStart wRoomNoOps.teams = false ∧
    (startGame wRoomNoOps Team.red []).status = RoomStatus.playing := by
  have h := startGame_checks_only_spymasters wRoomNoOps Team.red []
    (by decide) (by decide) (by decide) (by decide) (by decide) (by decide)
  exact ⟨h.1, h.2.1⟩

/-- C1 (amended): in the guess phase, revealing an unrevealed card that is
neither the guessing team's colour nor the assassin flips `currentTurn`,
returns to the clue phase and clears the clue, **provided** the reveal
leaves both teams' found counts different from their totals (otherwise the
all-found branches fire first and the turn does not pass). -/
theorem guessCard_offteam_passes_turn (p : PlayerCtx) (st : RoomStatus)
    (g : GameState) (i ts : Nat) (card : Card)
    (hcan : canGuess g p = true) (hc : g.board[i]? = some card)
    (hrev : card.revealed = false)
    (hty : card.type ≠ teamCardType g.currentTurn)
    (hass : card.type ≠ CardType.assassin)
    (hred : (bumpScores g.scores card.type).red.found
              ≠ (bumpScores g.scores card.type).red.total)
    (hblue : (bumpScores g.scores card.type).blue.found
              ≠ (bumpScores g.scores card.type).blue.total) :
    (guessCard p st g i ts).1 = st ∧
    (guessCard p st g i ts).2.currentTurn = g.currentTurn.other ∧
    (guessCard p st g i ts).2.phase = Phase.clue ∧
    (guessCard p st g i ts).2.currentClue = none := by
  unfold guessCard
  rw [if_neg (by simp [hcan]), hc]
  simp only [hrev, Bool.false_eq_true, if_false]
  rw [if_neg hass, if_neg hred, if_neg hblue, if_pos hty]
  exact ⟨rfl, rfl, rfl, rfl⟩

/-- Witness for C1 (amended): the red operative reveals the neutral card
of a one-card fixture; the turn passes to blue with a cleared clue. -/
theorem guessCard_offteam_passes_turn_witness :
    (guessCard opRed RoomStatus.playing cxGameC2 0 3).2.currentTurn
        = Team.blue ∧
    (guessCard opRed RoomStatus.playing cxGameC2 0 3).2.phase = Phase.clue ∧
    (guessCard opRed RoomStatus.playing cxGameC2 0 3).2.currentClue = none := by
  have h := guessCard_offteam_passes_turn opRed RoomStatus.playing cxGameC2 0 3
    { id := 0, word := "TREE", type := CardType.neutral
      revealed := false, revealedBy := none }
    (by decide) (by decide) (by decide) (by decide) (by decide)
    (by decide) (by decide)
  exact ⟨h.2.1, h.2.2.1, h.2.2.2⟩

/-- Counterexample to C1 as stated: in `cxGameC1` (red's turn, card 0 is
blue's last unfound card) the wrong-team guess does **not** flip the turn
or reset the phase — the blue all-found branch fires instead, setting
`winner = blue` and leaving turn, phase and clue untouched. -/
theorem guessCard_offteam_counterexample :
    canGuess cxGameC1 opRed = true ∧
    cxGameC1.board[0]? = some
      { id := 0, word := "CLAM", type := CardType.blue
        revealed := false, revealedBy := none } ∧
    (CardType.blue ≠ teamCardType cxGameC1.currentTurn ∧
      CardType.blue ≠ CardType.assassin) ∧
    ¬ ((guessCard opRed RoomStatus.playing cxGameC1 0 0).2.currentTurn
          = cxGameC1.currentTurn.other ∧
       (guessCard opRed RoomStatus.playing cxGameC1 0 0).2.phase
          = Phase.clue ∧
       (guessCard opRed RoomStatus.playing cxGameC1 0 0).2.currentClue
          = none) ∧
    (guessCard opRed RoomStatus.playing cxGameC1 0 0).2.winner
        = some Team.blue := by
  decide

/-- C4 (amended): in the guess phase, a guess of the guessing team's own
colour that brings that team's found count up to its total makes that team
the winner with `winReason = all_found` (even with guesses remaining, and
before any turn-pass logic), **provided** the opposing team's found count
differs from its total (otherwise, when blue is guessing, the red
all-found branch is checked first and declares red the winner). -/
theorem guessCard_all_found_wins (p : PlayerCtx) (st : RoomStatus)
    (g : GameState) (i ts : Nat) (card : Card)
    (hcan : canGuess g p = true) (hc : g.board[i]? = some card)
    (hrev : card.revealed = false)
    (hty : card.type = teamCardType g.currentTurn)
    (hown : ((bumpScores g.scores card.type).get g.currentTurn).found
              = ((bumpScores g.scores card.type).get g.currentTurn).total)
    (hother : ((bumpScores g.scores card.type).get g.currentTurn.other).found
              ≠ ((bumpScores g.scores card.type).get g.currentTurn.other).total) :
    (guessCard p st g i ts).1 = RoomStatus.finished ∧
    (guessCard p st g i ts).2.winner = some g.currentTurn ∧
    (guessCard p st g i ts).2.winReason = some WinReason.all_found := by
  unfold guessCard
  rw [if_neg (by simp [hcan]), hc]
  simp only [hrev, Bool.false_eq_true, if_false]
  have hass : ¬ card.type = CardType.assassin := by
    rw [hty]; cases g.currentTurn <;> simp [teamCardType]
  rw [if_neg hass]
  cases ht : g.currentTurn with
  | red =>
    rw [ht] at hown
    rw [if_pos (by simpa [Scores.get] using hown)]
    exact ⟨rfl, rfl, rfl⟩
  | blue =>
    rw [ht] at hown hother
    rw [if_neg (by simpa [Scores.get, Team.other] using hother)]
    rw [if_pos (by simpa [Scores.get] using hown)]
    exact ⟨rfl, rfl, rfl⟩

/-- Witness for C4 (amended): red reveals its 9th card in a fixture where
blue is not complete; red wins with `all_found` while guesses remain. -/
theorem guessCard_all_found_wins_witness :
    (guessCard opRed RoomStatus.playing
        { cxGameC5 with scores := { red := { found := 8, total := 9 }
                                    blue := { found := 2, total := 8 } }
                        winner := none, winReason := none } 0 1).1
      = RoomStatus.finished ∧
    (guessCard opRed RoomStatus.playing
        { cxGameC5 with scores := { red := { found := 8, total := 9 }
                                    blue := { found := 2, total := 8 } }
                        winner := none, winReason := none } 0 1).2.winner
      = some Team.red := by
  have h := guessCard_all_found_wins opRed RoomStatus.playing
    { cxGameC5 with scores := { red := { found := 8, total := 9 }
                                blue := { found := 2, total := 8 } }
                    winner := none, winReason := none } 0 1
    { id := 0, word := "DOG", type := CardType.red
      revealed := false, revealedBy := none }
    (by decide) (by decide) (by decide) (by decide) (by decide) (by decide)
  exact ⟨h.1, h.2.1⟩

/-- Counterexample to C4 as stated: in `cxGameC4` (blue's turn, card 0
completes blue's board, but red's board is already complete) the code
declares **red** the winner, not the guessing team blue, because the red
all-found branch is checked first. -/
theorem guessCard_all_found_counterexample :
    canGuess cxGameC4 opBlue = true ∧
    cxGameC4.board[0]? = some
      { id := 0, word := "CLAM", type := CardType.blue
        revealed := false, revealedBy := none } ∧
    CardType.blue = teamCardType cxGameC4.currentTurn ∧
    ((bumpScores cxGameC4.scores CardType.blue).get cxGameC4.currentTurn).found
      = ((bumpScores cxGameC4.scores CardType.blue).get cxGameC4.currentTurn).total ∧
    (guessCard opBlue RoomStatus.playing cxGameC4 0 0).2.winner
      ≠ some cxGameC4.currentTurn ∧
    (guessCard opBlue RoomStatus.playing cxGameC4 0 0).2.winner
      = some Team.red := by
  decide

/-- C5 (amended): in the guess phase with a current clue whose
`guessesRemaining` is at least 1, a correct-team guess that leaves both
teams' found counts different from their totals decrements
`guessesRemaining`; the turn passes when the decremented value reaches 0
and otherwise the game stays in the guess phase on the same turn with the
decremented counter. (The provisos that the opposing team's board is not
already complete and that `guessesRemaining ≥ 1` are forced by the
all-found branches and the JS `|| 1` default.) -/
theorem guessCard_correct_guess_decrements (p : PlayerCtx) (st : RoomStatus)
    (g : GameState) (i ts : Nat) (card : Card) (c : Clue)
    (hcan : canGuess g p = true) (hc : g.board[i]? = some card)
    (hrev : card.revealed = false)
    (hty : card.type = teamCardType g.currentTurn)
    (hclue : g.currentClue = some c) (hgr : 1 ≤ c.guessesRemaining)
    (hred : (bumpScores g.scores card.type).red.found
              ≠ (bumpScores g.scores card.type).red.total)
    (hblue : (bumpScores g.scores card.type).blue.found
              ≠ (bumpScores g.scores card.type).blue.total) :
    (guessCard p st g i ts).1 = st ∧
    (c.guessesRemaining - 1 = 0 →
      (guessCard p st g i ts).2.currentTurn = g.currentTurn.other ∧
      (guessCard p st g i ts).2.phase = Phase.clue ∧
      (guessCard p st g i ts).2.currentClue = none) ∧
    (c.guessesRemaining - 1 ≠ 0 →
      (guessCard p st g i ts).2.currentTurn = g.currentTurn ∧
      (guessCard p st g i ts).2.phase = g.phase ∧
      (guessCard p st g i ts).2.currentClue
        = some { c with guessesRemaining := c.guessesRemaining - 1 }) := by
  have hass : ¬ card.type = CardType.assassin := by
    rw [hty]; cases g.currentTurn <;> simp [teamCardType]
  have hnoflip : ¬ card.type ≠ teamCardType g.currentTurn := by
    simp [hty]
  have hgr0 : (if c.guessesRemaining = 0 then 1 else c.guessesRemaining)
      = c.guessesRemaining := by
    rw [if_neg (by omega)]
  unfold guessCard
  rw [if_neg (by simp [hcan]), hc]
  simp only [hrev, Bool.false_eq_true, if_false]
  rw [if_neg hass, if_neg hred, if_neg hblue, if_neg hnoflip, hclue]
  simp only [hgr0]
  by_cases hrem : c.guessesRemaining - 1 = 0
  · rw [if_pos hrem]
    exact ⟨rfl, fun _ => ⟨rfl, rfl, rfl⟩, fun h => absurd hrem h⟩
  · rw [if_neg hrem]
    exact ⟨rfl, fun h => absurd h hrem, fun _ => ⟨rfl, rfl, rfl⟩⟩

/-- Witness for C5 (amended): in the fixture clue-phase game moved to the
guess phase with clue `(X, 2, 3)`, red's correct guess keeps the turn and
decrements the counter to 2. -/
theorem guessCard_correct_guess_decrements_witness :
    (guessCard opRed RoomStatus.playing
        { wGameClue with phase := Phase.guess
                         currentClue := some { word := "X", number := 2, guessesRemaining := 3 }
                         scores := { red := { found := 3, total := 9 }
                                     blue := { found := 2, total := 8 } } }
        0 5).2.currentClue
      = some { word := "X", number := 2, guessesRemaining := 2 } ∧
    (guessCard opRed RoomStatus.playing
        { wGameClue with phase := Phase.guess
                         currentClue := some { word := "X", number := 2, guessesRemaining := 3 }
                         scores := { red := { found := 3, total := 9 }
                                     blue := { found := 2, total := 8 } } }
        0 5).2.currentTurn = Team.red := by
  have h := guessCard_correct_guess_decrements opRed RoomStatus.playing
    { wGameClue with phase := Phase.guess
                     currentClue := some { word := "X", number := 2, guessesRemaining := 3 }
                     scores := { red := { found := 3, total := 9 }
                                 blue := { found := 2, total := 8 } } }
    0 5
    { id := 0, word := "DOG", type := CardType.red
      revealed := false, revealedBy := none }
    { word := "X", number := 2, guessesRemaining := 3 }
    (by decide) (by decide) (by decide) (by decide) (by decide) (by decide)
    (by decide) (by decide)
  have h3 := h.2.2 (by decide)
  exact ⟨h3.2.2, h3.1⟩

/-- Counterexample to C5 as stated: in `cxGameC5` (red's turn, card 0 a
red card that does not complete red's board, clue counter 3) the guess
does **not** decrement the counter — blue's board is already complete, so
the blue all-found branch fires, leaving the clue at 3 and setting
`winner = blue`. -/
theorem guessCard_correct_guess_counterexample :
    canGuess cxGameC5 opRed = true ∧
    cxGameC5.board[0]? = some
      { id := 0, word := "DOG", type := CardType.red
        revealed := false, revealedBy := none } ∧
    CardType.red = teamCardType cxGameC5.currentTurn ∧
    (bumpScores cxGameC5.scores CardType.red).red.found
      ≠ (bumpScores cxGameC5.scores CardType.red).red.total ∧
    cxGameC5.currentClue
      = some { word := "X", number := 2, guessesRemaining := 3 } ∧
    (guessCard opRed RoomStatus.playing cxGameC5 0 0).2.currentClue
      ≠ some { word := "X", number := 2, guessesRemaining := 2 } ∧
    (guessCard opRed RoomStatus.playing cxGameC5 0 0).2.currentClue
      = some { word := "X", number := 2, guessesRemaining := 3 } ∧
    (guessCard opRed RoomStatus.playing cxGameC5 0 0).2.winner
      = some Team.blue := by
  decide

/-- C2 (amended): the transition guards never check `winner`; the freeze
after a win is only as strong as the phase. Every winner-setting branch of
`guessCard` leaves the phase unchanged (at `guess`), so in the winner
states the code reaches, `submitClue` is rejected because it requires the
clue phase — but `guessCard` and `endTurn` are still accepted there. -/
theorem winner_states_only_block_clues :
    (∀ (g : GameState) (p : PlayerCtx) (w : String) (n ts : Nat),
        g.winner ≠ none → g.phase = Phase.guess → submitClue p w n ts g = g) ∧
    (∀ (p : PlayerCtx) (st : RoomStatus) (g : GameState) (i ts : Nat),
        (guessCard p st g i ts).2.winner = g.winner ∨
          (guessCard p st g i ts).2.phase = g.phase) := by
  constructor
  · intro g p w n ts hw hph
    unfold submitClue
    rw [if_pos (by simp [canGiveClue, hph])]
  · intro p st g i ts
    unfold guessCard
    repeat first
      | (left; rfl)
      | (right; rfl)
      | split
      | simp only []

/-- Witness for C2 (amended): in the already-won fixture game (winner set,
phase `guess`), a clue submission by the red spymaster is a no-op. -/
theorem winner_states_only_block_clues_witness :
    submitClue spyRed "HAT" 2 0 cxGameC2 = cxGameC2 :=
  winner_states_only_block_clues.1 cxGameC2 spyRed "HAT" 2 0
    (by decide) (by decide)

/-- Counterexample to C2 as stated: in the already-won fixture game
`cxGameC2` (`winner = blue`), `guessCard` still reveals a card and mutates
the game, and `endTurn` still flips the turn — winner states are not
frozen at the transition level. -/
theorem winner_state_not_frozen_counterexample :
    cxGameC2.winner = some Team.blue ∧
    (guessCard opRed RoomStatus.finished cxGameC2 0 0).2 ≠ cxGameC2 ∧
    (guessCard opRed RoomStatus.finished cxGameC2 0 0).2.board
      ≠ cxGameC2.board ∧
    endTurn opRed 0 cxGameC2 ≠ cxGameC2 := by
  decide

theorem Teams.get_setTeam_self (ts : Teams) (t : Team) (td : TeamData) :
    (ts.setTeam t td).get t = td := by
  cases t <;> rfl

theorem lookup_cons_kv (B k : String) (w : RoomPlayer)
    (l : List (String × RoomPlayer)) :
    List.lookup B ((k, w) :: l) = if B = k then some w else List.lookup B l := by
  by_cases h : B = k <;> simp [List.lookup, h, beq_iff_eq, BEq.beq]

theorem lookup_setPlayerRole_ne (ps : List (String × RoomPlayer))
    (uid B : String) (role : Role) (h : B ≠ uid) :
    (setPlayerRole ps uid role).lookup B = ps.lookup B := by
  induction ps with
  | nil => rfl
  | cons kv rest ih =>
    obtain ⟨k, v⟩ := kv
    rw [show setPlayerRole ((k, v) :: rest) uid role
        = (k, if k = uid then { v with role := some role } else v)
            :: setPlayerRole rest uid role from by
      by_cases hk : k = uid <;> simp [setPlayerRole, hk]]
    rw [lookup_cons_kv, lookup_cons_kv]
    by_cases hBk : B = k
    · rw [if_pos hBk, if_pos hBk, if_neg (fun hh => h (hBk ▸ hh))]
    · rw [if_neg hBk, if_neg hBk, ih]

/-- C8: under serialized execution the spymaster slot is first-writer-wins:
(1) whenever a team's slot is held by `A` (a real, non-empty uid), a
spymaster request by any different player `B` of that team is a complete
no-op; (2) consequently `selectRole` by `A` then by `B` on the same team
leaves the slot equal to `A`. -/
theorem selectRole_spymaster_first_writer_wins :
    (∀ (r : Room) (B A : String) (t : Team) (pB : RoomPlayer),
      r.players.lookup B = some pB → pB.team = some t →
      (r.teams.get t).spymaster = some A → A ≠ "" → B ≠ A →
      selectRole r B Role.spymaster = r) ∧
    (∀ (r : Room) (A B : String) (t : Team) (pA pB : RoomPlayer),
      r.players.lookup A = some pA → pA.team = some t →
      r.players.lookup B = some pB → pB.team = some t →
      (r.teams.get t).spymaster = none → A ≠ "" → B ≠ A →
      selectRole (selectRole r A Role.spymaster) B Role.spymaster
          = selectRole r A Role.spymaster ∧
      ((selectRole (selectRole r A Role.spymaster) B Role.spymaster).teams.get
          t).spymaster = some A) := by
  have noop : ∀ (r : Room) (B A : String) (t : Team) (pB : RoomPlayer),
      r.players.lookup B = some pB → pB.team = some t →
      (r.teams.get t).spymaster = some A → A ≠ "" → B ≠ A →
      selectRole r B Role.spymaster = r := by
    intro r B A t pB hB hBt hslot hA hBA
    unfold selectRole
    rw [hB, Option.some_bind, hBt]
    simp only []
    rw [if_pos trivial, if_pos (show jsTruthy (r.teams.get t).spymaster = true
        ∧ (r.teams.get t).spymaster ≠ some B from
      ⟨by rw [hslot]; simpa [jsTruthy] using hA,
       by rw [hslot]; intro h; exact hBA (Option.some.inj h).symm⟩)]
  refine ⟨noop, ?_⟩
  intro r A B t pA pB hA hAt hB hBt hslot hAne hBA
  have hstep : selectRole r A Role.spymaster =
      { r with
        teams := r.teams.setTeam t
          { spymaster := some A
            operatives := (r.teams.get t).operatives.filter (· ≠ A) }
        players := setPlayerRole r.players A Role.spymaster } := by
    unfold selectRole
    rw [hA, Option.some_bind, hAt]
    simp only []
    rw [if_pos trivial, if_neg (by rw [hslot]; simp [jsTruthy])]
  have hlookB :
      (selectRole r A Role.spymaster).players.lookup B = some pB := by
    rw [hstep]
    exact (lookup_setPlayerRole_ne r.players A B Role.spymaster hBA).trans hB
  have hslotA :
      ((selectRole r A Role.spymaster).teams.get t).spymaster = some A := by
    rw [hstep]
    rw [Teams.get_setTeam_self]
  have hno := noop (selectRole r A Role.spymaster) B A t pB hlookB hBt hslotA
    hAne hBA
  exact ⟨hno, by rw [hno]; exact hslotA⟩

/-- Witness for C8: in the fixture lobby where red has no spymaster,
`alice` claims the slot and `bob`'s subsequent request is rejected. -/
theorem selectRole_spymaster_first_writer_wins_witness :
    ((selectRole (selectRole wRoom "alice" Role.spymaster) "bob"
        Role.spymaster).teams.get Team.red).spymaster = some "alice" :=
  (selectRole_spymaster_first_writer_wins.2 wRoom "alice" "bob" Team.red
    { id := "alice", name := "Alice"
      team := some Team.red, role := some Role.operative }
    { id := "bob", name := "Bob"
      team := some Team.red, role := some Role.operative }
    (by decide) (by decide) (by decide) (by decide) (by decide) (by decide)
    (by decide)).2

/-- C7: for any starting team and any vocabulary of at least 25 distinct
words, and any random draws, `generateBoard` returns exactly 25 cards,
whose type counts are exactly 9 starting-team / 8 other-team / 7 neutral /
1 assassin, whose words are pairwise distinct, and whose every card is
initially unrevealed with `revealedBy = null` and `id` equal to its
position. -/
theorem generateBoard_distribution (f fTypes : Nat → Nat)
    (wordList : List String) (t : Team)
    (hlen : 25 ≤ wordList.length) (hnd : wordList.Nodup) :
    (generateBoard f fTypes wordList t).length = 25 ∧
    ((generateBoard f fTypes wordList t).map Card.type).count (teamCardType t)
        = 9 ∧
    ((generateBoard f fTypes wordList t).map Card.type).count
        (teamCardType t.other) = 8 ∧
    ((generateBoard f fTypes wordList t).map Card.type).count CardType.neutral
        = 7 ∧
    ((generateBoard f fTypes wordList t).map Card.type).count CardType.assassin
        = 1 ∧
    ((generateBoard f fTypes wordList t).map Card.word).Nodup ∧
    (∀ (k : Nat) (c : Card), (generateBoard f fTypes wordList t)[k]? = some c →
      c.revealed = false ∧ c.revealedBy = none ∧ c.id = k) := by
  have hwperm := shuffleArray_perm f wordList
  have htperm := shuffleArray_perm fTypes (boardTypes t)
  have hwlen : ((shuffleArray f wordList).take 25).length = 25 := by
    rw [List.length_take, hwperm.length_eq]
    omega
  have htlen : (shuffleArray fTypes (boardTypes t)).length = 25 := by
    rw [htperm.length_eq, boardTypes_length]
  have hmapty : (generateBoard f fTypes wordList t).map Card.type
      = shuffleArray fTypes (boardTypes t) := by
    unfold generateBoard
    rw [List.map_map]
    exact enum_map_getD ((shuffleArray f wordList).take 25)
      (shuffleArray fTypes (boardTypes t)) CardType.neutral
      (hwlen.trans htlen.symm)
  have hcount : ∀ ty : CardType,
      ((generateBoard f fTypes wordList t).map Card.type).count ty
        = (boardTypes t).count ty := by
    intro ty
    rw [hmapty]
    exact htperm.count_eq ty
  have hmapword : (generateBoard f fTypes wordList t).map Card.word
      = (shuffleArray f wordList).take 25 := by
    unfold generateBoard
    rw [List.map_map]
    exact List.enum_map_snd ((shuffleArray f wordList).take 25)
  refine ⟨?_, ?_, ?_, ?_, ?_, ?_, ?_⟩
  · unfold generateBoard
    rw [List.length_map, List.enum_length, hwlen]
  · rw [hcount]
    cases t <;> decide
  · rw [hcount]
    cases t <;> decide
  · rw [hcount]
    cases t <;> decide
  · rw [hcount]
    cases t <;> decide
  · rw [hmapword]
    exact (List.take_sublist 25 (shuffleArray f wordList)).nodup
      (hwperm.nodup_iff.mpr hnd)
  · intro k c hk
    unfold generateBoard at hk
    rw [List.getElem?_map, List.getElem?_enum] at hk
    cases hw : ((shuffleArray f wordList).take 25)[k]? with
    | none => rw [hw] at hk; simp at hk
    | some w =>
      rw [hw] at hk
      simp only [Option.map_some', Option.some.injEq] at hk
      rw [← hk]
      exact ⟨rfl, rfl, rfl⟩

/-- Witness for C7: the identity draws on a 25-word vocabulary with red
starting produce a well-formed board (25 cards, 9/8/7/1, distinct words,
all unrevealed with positional ids). -/
theorem generateBoard_distribution_witness :
    (generateBoard id id wWords Team.red).length = 25 ∧
    ((generateBoard id id wWords Team.red).map Card.type).count
        (teamCardType Team.red) = 9 ∧
    ((generateBoard id id wWords Team.red).map Card.type).count
        (teamCardType Team.red.other) = 8 ∧
    ((generateBoard id id wWords Team.red).map Card.type).count
        CardType.neutral = 7 ∧
    ((generateBoard id id wWords Team.red).map Card.type).count
        CardType.assassin = 1 ∧
    ((generateBoard id id wWords Team.red).map Card.word).Nodup :=
  let h := generateBoard_distribution id id wWords Team.red
    (by decide) (by decide)
  ⟨h.1, h.2.1, h.2.2.1, h.2.2.2.1, h.2.2.2.2.1, h.2.2.2.2.2.1⟩

end Codenames
